import Mathlib

/-!
Shallow embedding of src/src/main.ts.

The source is a single linear script:

  const list = [1, 2, 3].map(x => x + 1);
  console.log(list);

  type Item = string | number;
  const mutateItems = (items: Array<Item>): void => {
    items.push("Hello world");
  }

  const numbers: Array<number> = [1, 2, 3];

  mutateItems(numbers);

  console.log(numbers);

JavaScript arrays are reference values: a variable of array type holds an
address into a heap of array objects, and passing an array to a function
passes that address, not a copy of the elements.  The embedding therefore
models a heap as a list of array objects addressed by position, and the
script as explicit state passing over that heap plus an output trace.
Dereferencing is fallible (Option) so that the absence of runtime error
paths is an actual property of the run rather than a triviality of the
translation.
-/

/-- The runtime values stored in the arrays of the program.  The source
declares `type Item = string | number`; every number occurring in the
program is an integer, so numbers are modelled as `Int`. -/
inductive Item where
  | num (n : Int)
  | str (s : String)
deriving DecidableEq

/-- Whether a runtime value is a number.  Used to state that the mutated
array violates its declared integer-only element type. -/
def Item.isNumber : Item → Bool
  | .num _ => true
  | .str _ => false

/-- The heap of array objects: an array reference is an index into this
list. -/
abbrev Heap := List (List Item)

/-- Allocate a fresh array object, returning the extended heap and the
reference to the new object. -/
def alloc (h : Heap) (a : List Item) : Heap × Nat :=
  (h ++ [a], h.length)

/-- Dereference an array reference.  `none` models an invalid reference;
no statement of the program ever produces one. -/
def readRef (h : Heap) (r : Nat) : Option (List Item) :=
  h[r]?

/-- `items.push(v)`: append `v` in place to the array object that `r`
refers to.  The object is updated at its existing address; no new object
is allocated. -/
def pushRef (h : Heap) (r : Nat) (v : Item) : Option Heap :=
  (readRef h r).map (fun a => h.set r (a ++ [v]))

/-- The source function
`const mutateItems = (items: Array<Item>): void => { items.push("Hello world"); }`.
It receives a reference to the array of the caller and returns no value,
modelled as `Unit` alongside the updated heap. -/
def mutateItems (h : Heap) (items : Nat) : Option (Heap × Unit) :=
  (pushRef h items (Item.str "Hello world")).map (fun h2 => (h2, ()))

/-- The callback `x => x + 1` of the first line, on runtime values.  On a
number it adds one; on a string, JavaScript `+ 1` appends the rendering
of 1 (this branch is never reached in the program, whose arrays hold only
numbers when mapped). -/
def addOneItem : Item → Item
  | .num n => .num (n + 1)
  | .str s => .str (s ++ "1")

/-- `Array.prototype.map`: read the receiver through its reference and
allocate a fresh array holding the images of its elements.  The receiver
object itself is not written. -/
def jsMap (h : Heap) (r : Nat) (f : Item → Item) : Option (Heap × Nat) :=
  (readRef h r).map (fun a => alloc h (a.map f))

/-- The map operation of line 1 applied to an arbitrary all-integer
array: inject the integers into runtime values and map the add-one
callback over them. -/
def addOneMapInt (A : List Int) : List Item :=
  (A.map Item.num).map addOneItem

/-- Modelled from the spec: the textual representation of a single array
element as printed by `console.log` (the rendering is performed by the
host runtime, not by code of this repository).  A number prints as its
decimal digits, a string in double quotes. -/
def renderItem : Item → String
  | .num n => toString n
  | .str s => "\"" ++ s ++ "\""

/-- Modelled from the spec: the textual representation of an array as
printed by `console.log`, comma-separated elements in square brackets. -/
def render (xs : List Item) : String :=
  "[" ++ String.intercalate ", " (xs.map renderItem) ++ "]"

/-- `console.log(r)`: dereference `r` and append the rendering of the
array to the output trace. -/
def consoleLog (h : Heap) (out : List String) (r : Nat) : Option (List String) :=
  (readRef h r).map (fun a => out ++ [render a])

/-- The array literal `[1, 2, 3]` of line 1, allocated in the empty
heap; its reference is the receiver of the `.map` call. -/
def litA : Heap × Nat :=
  alloc [] [Item.num 1, Item.num 2, Item.num 3]

/-- Line 1 of the script: `const list = [1, 2, 3].map(x => x + 1);`
producing the heap after the call and the reference bound to `list`. -/
def mapStep : Option (Heap × Nat) :=
  jsMap litA.1 litA.2 addOneItem

/-- The whole script, run top to bottom: the final heap and the output
trace, or `none` if any step hit a runtime error. -/
def mainRun : Option (Heap × List String) := do
  let (h2, list) ← mapStep
  let out1 ← consoleLog h2 [] list
  let (h3, numbers) := alloc h2 [Item.num 1, Item.num 2, Item.num 3]
  let (h4, _ret) ← mutateItems h3 numbers
  let out2 ← consoleLog h4 out1 numbers
  return (h4, out2)

/-- The script run in an ambient environment: standard input and the
environment variables are available to the process, but no statement of
the source consults either, so the translation of each statement ignores
them. -/
def mainIn (_stdin : List String) (_env : List (String × String)) :
    Option (Heap × List String) :=
  mainRun

/-- A valid dereference means the reference is within the heap. -/
theorem readRef_some_lt {h : Heap} {r : Nat} {a : List Item}
    (ha : readRef h r = some a) : r < h.length :=
  (List.getElem?_eq_some.mp ha).1

/-- On a valid reference, `mutateItems` succeeds and updates the heap by
appending the string to the referenced array object in place. -/
theorem mutateItems_eq {h : Heap} {r : Nat} {a : List Item}
    (ha : readRef h r = some a) :
    mutateItems h r = some (h.set r (a ++ [Item.str "Hello world"]), ()) := by
  simp [mutateItems, pushRef, ha]

/-- Reading back an address just overwritten yields the new contents. -/
theorem readRef_set_self {h : Heap} {r : Nat} {a : List Item}
    (ha : readRef h r = some a) (b : List Item) :
    readRef (h.set r b) r = some b :=
  List.getElem?_set_eq_of_lt b (readRef_some_lt ha)

/-- C1: Running the program with no input produces exactly two lines on
standard output, in order: first the textual representation of the
derived sequence B as [2, 3, 4], then the textual representation of the
mutated sequence C as [1, 2, 3, "Hello world"], with no other output and
a successful exit (the run is `some`, hitting no error path). -/
theorem program_prints_two_lines :
    mainRun.map (fun st => st.2) =
      some ["[2, 3, 4]", "[1, 2, 3, \"Hello world\"]"] := by
  rfl

/-- C2: For the fixed input sequence A = [1, 2, 3], the derived sequence
B produced by the map operation equals [2, 3, 4] exactly. -/
theorem b_equals_two_three_four :
    addOneMapInt [1, 2, 3] = [Item.num 2, Item.num 3, Item.num 4] := by
  rfl

/-- C3: For every all-integer input sequence A of length n, the derived
sequence B produced by mapping the add-one transformation has length n,
and B at index i is A at index i plus one, for every index i below n. -/
theorem map_add_one_pointwise (A : List Int) (i : Nat) (hi : i < A.length) :
    (addOneMapInt A).length = A.length ∧
      (addOneMapInt A)[i]? = some (Item.num (A.get ⟨i, hi⟩ + 1)) := by
  refine ⟨by simp [addOneMapInt], ?_⟩
  simp [addOneMapInt, List.getElem?_map, List.getElem?_eq_getElem hi, addOneItem]

/-- Witness for C3 at A = [1, 2, 3] and i = 0. -/
theorem map_add_one_pointwise_witness :
    (addOneMapInt [1, 2, 3]).length = ([1, 2, 3] : List Int).length ∧
      (addOneMapInt [1, 2, 3])[0]? =
        some (Item.num (([1, 2, 3] : List Int).get ⟨0, by decide⟩ + 1)) :=
  map_add_one_pointwise [1, 2, 3] 0 (by decide)

/-- C4: Calling the mutation operation exactly once on C = [1, 2, 3]
yields C = [1, 2, 3, "Hello world"]: length 4, the first three elements
the unchanged integers 1, 2, 3, the last element the string
"Hello world", and the resulting contents are no longer integers only. -/
theorem mutate_once_on_one_two_three :
    mutateItems [[Item.num 1, Item.num 2, Item.num 3]] 0 =
      some ([[Item.num 1, Item.num 2, Item.num 3, Item.str "Hello world"]], ()) ∧
      ([Item.num 1, Item.num 2, Item.num 3, Item.str "Hello world"] : List Item).length = 4 ∧
      ([Item.num 1, Item.num 2, Item.num 3, Item.str "Hello world"] : List Item).all
        Item.isNumber = false :=
  ⟨rfl, rfl, rfl⟩

/-- C5: The mutation routine aliases rather than copies: it returns no
value (only `Unit`), allocates no new array object (the heap keeps the
same number of objects, so the storage is the same object at the same
address), and after the call the same reference held by the caller
dereferences to the array with the appended element. -/
theorem mutateItems_aliases (h : Heap) (r : Nat) (a : List Item)
    (ha : readRef h r = some a) :
    ∃ h2, mutateItems h r = some (h2, ()) ∧
      h2.length = h.length ∧
      readRef h2 r = some (a ++ [Item.str "Hello world"]) :=
  ⟨h.set r (a ++ [Item.str "Hello world"]), mutateItems_eq ha,
    List.length_set .., readRef_set_self ha _⟩

/-- Witness for C5 at the one-object heap holding [1, 2, 3]. -/
theorem mutateItems_aliases_witness :
    readRef [[Item.num 1, Item.num 2, Item.num 3]] 0 =
        some [Item.num 1, Item.num 2, Item.num 3] ∧
      ∃ h2, mutateItems [[Item.num 1, Item.num 2, Item.num 3]] 0 = some (h2, ()) ∧
        h2.length = ([[Item.num 1, Item.num 2, Item.num 3]] : Heap).length ∧
        readRef h2 0 =
          some ([Item.num 1, Item.num 2, Item.num 3] ++ [Item.str "Hello world"]) :=
  ⟨rfl, mutateItems_aliases _ _ _ rfl⟩

/-- C6: For the given literal inputs no runtime error path is taken: the
run of the whole script succeeds, meaning every dereference and every
operation along the way completed without an error. -/
theorem no_runtime_error_path : mainRun.isSome = true := by
  rfl

/-- C7: The source sequence A is immutable after creation: the map
operation of line 1 succeeds, the receiver object at the address of A is
untouched by it, and afterwards A still equals [1, 2, 3]. -/
theorem a_unchanged_by_map :
    ∃ p, mapStep = some p ∧
      readRef p.1 litA.2 = readRef litA.1 litA.2 ∧
      readRef p.1 litA.2 = some [Item.num 1, Item.num 2, Item.num 3] :=
  ⟨_, rfl, rfl, rfl⟩

/-- C8: For every input sequence (any contents, any length), a single
call to the mutation routine increases the length of the sequence by
exactly one and places the new element at the end. -/
theorem mutateItems_appends_one (h : Heap) (r : Nat) (a : List Item)
    (ha : readRef h r = some a) :
    ∃ h2 b, mutateItems h r = some (h2, ()) ∧ readRef h2 r = some b ∧
      b.length = a.length + 1 ∧ b[a.length]? = some (Item.str "Hello world") :=
  ⟨h.set r (a ++ [Item.str "Hello world"]), a ++ [Item.str "Hello world"],
    mutateItems_eq ha, readRef_set_self ha _, by simp,
    List.getElem?_concat_length a _⟩

/-- Witness for C8 at the one-object heap holding [1, 2, 3]. -/
theorem mutateItems_appends_one_witness :
    readRef [[Item.num 1, Item.num 2, Item.num 3]] 0 =
        some [Item.num 1, Item.num 2, Item.num 3] ∧
      ∃ h2 b, mutateItems [[Item.num 1, Item.num 2, Item.num 3]] 0 = some (h2, ()) ∧
        readRef h2 0 = some b ∧
        b.length = ([Item.num 1, Item.num 2, Item.num 3] : List Item).length + 1 ∧
        b[([Item.num 1, Item.num 2, Item.num 3] : List Item).length]? =
          some (Item.str "Hello world") :=
  ⟨rfl, mutateItems_appends_one _ _ _ rfl⟩

/-- C9: For every input sequence, the mutation routine leaves every
pre-existing element unchanged: for each index i below the length before
the call, the element at i after the call equals the element at i before
the call. -/
theorem mutateItems_preserves_prefix (h : Heap) (r : Nat) (a : List Item) (i : Nat)
    (ha : readRef h r = some a) (hi : i < a.length) :
    ∃ h2 b, mutateItems h r = some (h2, ()) ∧ readRef h2 r = some b ∧
      b[i]? = a[i]? :=
  ⟨h.set r (a ++ [Item.str "Hello world"]), a ++ [Item.str "Hello world"],
    mutateItems_eq ha, readRef_set_self ha _,
    by simp [List.getElem?_append, hi]⟩

/-- Witness for C9 at the one-object heap holding [1, 2, 3] and i = 0. -/
theorem mutateItems_preserves_prefix_witness :
    readRef [[Item.num 1, Item.num 2, Item.num 3]] 0 =
        some [Item.num 1, Item.num 2, Item.num 3] ∧
      (0 : Nat) < ([Item.num 1, Item.num 2, Item.num 3] : List Item).length ∧
      ∃ h2 b, mutateItems [[Item.num 1, Item.num 2, Item.num 3]] 0 = some (h2, ()) ∧
        readRef h2 0 = some b ∧
        b[0]? = ([Item.num 1, Item.num 2, Item.num 3] : List Item)[0]? :=
  ⟨rfl, by decide, mutateItems_preserves_prefix _ _ _ 0 rfl (by decide)⟩

/-- C10: The program is deterministic: it reads no input and consults no
external state, so any two runs, whatever standard input and environment
they are given, produce identical results, output included. -/
theorem deterministic_output (s1 s2 : List String) (e1 e2 : List (String × String)) :
    mainIn s1 e1 = mainIn s2 e2 :=
  rfl
